import Mathlib

/-!
Verification of the buddy-ai conversational backend (Python sources under
`backend/`) against its natural-language specification.

Shallow embedding conventions:
* Python `str` is Lean `String`; substring tests (`sub in s`) and the other
  string operations are modelled character-exactly on `List Char`.
* Python floats are modelled as `ℚ`.  Every numeric fact proved below is
  evaluated only at inputs whose Python float computations are exact
  (small integers and halves), where the `ℚ` model and IEEE doubles agree.
* `random.choice(xs)` is modelled by an arbitrary index reduced mod `xs.length`.
* Wall-clock time (`time.time()`) is threaded explicitly as a `ℚ` argument;
  ISO timestamps stored in records are irrelevant to every property proved
  here and are omitted from the record types.
* Fallible Python code (`try`/`except`) is modelled with `Option`: the
  exception-raising core returns `none` where Python raises, and the
  wrapper supplies the `except` branch's templated string.
-/

namespace BuddyAI

/-- Substring occurrence on character lists: `pySubstr needle hay` is true iff
`needle` occurs contiguously in `hay` (Python's `needle in hay`). -/
def pySubstr (needle : List Char) : List Char → Bool
  | [] => needle.isEmpty
  | c :: t => needle.isPrefixOf (c :: t) || pySubstr needle t

/-- Python's `sub in s` membership test for strings. -/
def pyIn (sub s : String) : Bool := pySubstr sub.toList s.toList

/-- Python `str.lower()` (ASCII fragment, like Lean's `Char.toLower`), defined
by structural recursion over the character list so it evaluates in proofs. -/
def pyLower (s : String) : String := String.mk (s.toList.map Char.toLower)

/-- Python whitespace, as stripped by `str.strip()` (the characters that occur
in this code base). -/
def pySpace (c : Char) : Bool := c = ' ' || c = '\t' || c = '\n' || c = '\r'

/-- Python `str.strip()`: removes leading and trailing whitespace. -/
def pyStrip (s : String) : String :=
  String.mk (((s.toList.dropWhile pySpace).reverse.dropWhile pySpace).reverse)

/-- Python `str.split()` (no argument): whitespace-separated words, empties
dropped. -/
def pySplitWs (s : String) : List String :=
  (s.toList.splitOnP (fun c => pySpace c)).filterMap
    (fun w => if w.isEmpty then none else some (String.mk w))

/-- Python `str.split(sep)` for a one-character separator: every occurrence
splits, empty fields kept. -/
def pySplitChar (sep : Char) (s : String) : List String :=
  (s.toList.splitOn sep).map String.mk

/-- Fuelled worker for `pyReplace`; the fuel is the length of the text, enough
because every step consumes at least one character of it. -/
def pyReplaceAux (needle repl : List Char) : ℕ → List Char → List Char
  | 0, l => l
  | _ + 1, [] => []
  | fuel + 1, c :: t =>
    if needle ≠ [] ∧ needle.isPrefixOf (c :: t) then
      repl ++ pyReplaceAux needle repl fuel (List.drop (needle.length - 1) t)
    else
      c :: pyReplaceAux needle repl fuel t

/-- Python `str.replace(needle, repl)`: every occurrence, left to right. -/
def pyReplace (s needle repl : String) : String :=
  String.mk (pyReplaceAux needle.toList repl.toList s.toList.length s.toList)

/-- Python `str.endswith(c)` after `strip()`, specialised to one character as
the code uses it. -/
def pyStripEndsWith (s : String) (c : Char) : Bool :=
  ((pyStrip s).toList.getLast?) = some c

/-- Python `str.title()` on one alphanumeric word: first character upper-cased,
the rest lower-cased. -/
def pyTitleWord (w : List Char) : List Char :=
  match w with
  | [] => []
  | c :: t => c.toUpper :: t.map Char.toLower

/-- Python `str.title()` on a whitespace-separated phrase. -/
def pyTitle (s : String) : String :=
  String.mk ((s.toList.splitOnP (fun c => pySpace c)).map
    pyTitleWord |>.intersperse [' '] |>.flatten)

/-- Numeric value of a list of decimal digit characters. -/
def digitsVal (l : List Char) : ℕ :=
  l.foldl (fun a c => a * 10 + (c.toNat - 48)) 0

/-- Python `float(s)` on the simple numeral forms this code base feeds it
(optional sign, digits, optional fractional part); `none` where Python's
`float()` raises `ValueError`. -/
def pyFloat? (s : String) : Option ℚ :=
  let l := (pyStrip s).toList
  let (sign, l) : ℚ × List Char :=
    match l with
    | '-' :: t => (-1, t)
    | '+' :: t => (1, t)
    | _ => (1, l)
  let ip := l.takeWhile Char.isDigit
  let rest := l.dropWhile Char.isDigit
  match rest with
  | [] =>
    if ip = [] then none
    else some (sign * digitsVal ip)
  | '.' :: fp =>
    if ¬ fp.all Char.isDigit then none
    else if ip = [] ∧ fp = [] then none
    else some (sign * ((digitsVal ip : ℚ) + (digitsVal fp : ℚ) / (10 : ℚ) ^ fp.length))
  | _ => none

/-- Fractional decimal digits of `num / den` (with `num < den`), at most `fuel`
of them. -/
def decDigits : ℕ → ℕ → ℕ → List Char
  | _, _, 0 => []
  | num, den, fuel + 1 =>
    if num = 0 then []
    else Char.ofNat (48 + num * 10 / den) :: decDigits (num * 10 % den) den fuel

/-- Python `repr`/f-string rendering of a float, for values with a short
terminating decimal expansion (every value the claims evaluate is such: the
rendering of e.g. `5` is `"5.0"`, of `16` is `"16.0"`). -/
def pyFloatRepr (q : ℚ) : String :=
  let sign := if q < 0 then "-" else ""
  let num := q.num.natAbs
  let den := q.den
  let frac := decDigits (num % den) den 17
  sign ++ toString (num / den) ++ "." ++ (if frac = [] then "0" else String.mk frac)

/-! ### Emotion classifier (`backend/simple_main.py`, `analyze_emotion_and_context`) -/

def joy_words : List String :=
  ["happy", "joy", "great", "awesome", "wonderful", "amazing", "excited",
   "fantastic", "excellent", "brilliant", "love", "perfect", "thrilled",
   "delighted", "cheerful", "optimistic", "pleased", "glad", "ecstatic",
   "euphoric", "elated", "blissful", "overjoyed"]

def sad_words : List String :=
  ["sad", "depressed", "down", "upset", "crying", "tears", "miserable",
   "heartbroken", "disappointed", "gloomy", "melancholy", "sorrow",
   "grief", "despair", "blue", "lonely", "devastated", "crushed"]

def anger_words : List String :=
  ["angry", "mad", "furious", "annoyed", "frustrated", "irritated",
   "rage", "outraged", "livid", "pissed", "infuriated", "agitated",
   "hostile", "resentful", "bitter"]

def fear_words : List String :=
  ["scared", "afraid", "worried", "anxious", "nervous", "panic",
   "terrified", "frightened", "stress", "stressed", "overwhelmed",
   "tense", "paranoid", "apprehensive", "uneasy"]

def surprise_words : List String :=
  ["surprised", "shocked", "amazed", "astonished", "stunned",
   "wow", "incredible", "unbelievable", "mind-blown"]

/-- Keyword score: `pts` for each table word occurring in the (lower-cased)
text, as in `sum(pts if word in text_lower else 0 for word in words)`. -/
def keywordScore (words : List String) (pts : ℕ) (text_lower : String) : ℕ :=
  words.foldl (fun acc w => acc + (if pyIn w text_lower then pts else 0)) 0

def joy_score (text : String) : ℕ := keywordScore joy_words 2 (pyLower text)
def sad_score (text : String) : ℕ := keywordScore sad_words 2 (pyLower text)
def anger_score (text : String) : ℕ := keywordScore anger_words 2 (pyLower text)
def fear_score (text : String) : ℕ := keywordScore fear_words 2 (pyLower text)
def surprise_score (text : String) : ℕ := keywordScore surprise_words 1 (pyLower text)

/-- The score table in its Python insertion order. -/
def emotionScores (text : String) : List (String × ℕ) :=
  [("joy", joy_score text), ("sadness", sad_score text),
   ("anger", anger_score text), ("fear", fear_score text),
   ("surprise", surprise_score text)]

/-- Python's `max(scores.keys(), key=lambda k: scores[k])`: iterates in
insertion order, replacing the best only on a strictly greater score, so the
first key attaining the maximum wins. -/
def pyMaxByScore : List (String × ℕ) → String
  | [] => "neutral"
  | p :: ps => (ps.foldl (fun best q => if q.2 > best.2 then q else best) p).1

def positive_indicators : List String :=
  ["good", "nice", "okay", "fine", "well", "thanks", "please"]

def negative_indicators : List String :=
  ["bad", "not", "no", "never", "hate", "problem", "issue", "wrong"]

/-- Count of indicator words present in the text, as
`sum(1 for word in indicators if word in text_lower)`. -/
def indicatorCount (indicators : List String) (text_lower : String) : ℕ :=
  keywordScore indicators 1 text_lower

structure EmotionResult where
  emotion : String
  sentiment : ℚ
  confidence : ℚ
  deriving Repr, DecidableEq

/-- The positive sentiment accumulator `joy_score + surprise_score`. -/
def positiveAcc (text : String) : ℕ := joy_score text + surprise_score text

/-- The negative sentiment accumulator `sad_score + anger_score + fear_score`. -/
def negativeAcc (text : String) : ℕ :=
  sad_score text + anger_score text + fear_score text

/-- The secondary polarity-lexicon branch of the sentiment computation
(reached when the two accumulators are equal). -/
def indicatorSentiment (text_lower : String) : ℚ :=
  let pos_count := indicatorCount positive_indicators text_lower
  let neg_count := indicatorCount negative_indicators text_lower
  if pos_count > neg_count then 3 / 10
  else if neg_count > pos_count then -(3 / 10)
  else 0

/-- `analyze_emotion_and_context` from `backend/simple_main.py` (the
`emotion_scores` dict of the returned value is recoverable as
`emotionScores text` and is not duplicated in the record). -/
def analyze_emotion_and_context (text : String) : EmotionResult :=
  let text_lower := pyLower text
  let scores := emotionScores text
  let maxVal := (scores.map Prod.snd).foldl max 0
  let max_emotion := if maxVal > 0 then pyMaxByScore scores else "neutral"
  let max_score := ((scores.lookup max_emotion).getD 0 : ℕ)
  let positive_score := positiveAcc text
  let negative_score := negativeAcc text
  let sentiment : ℚ :=
    if positive_score > negative_score then
      min (8 / 10) ((positive_score : ℚ) / 10)
    else if negative_score > positive_score then
      -(min (8 / 10) ((negative_score : ℚ) / 10))
    else
      indicatorSentiment text_lower
  let confidence : ℚ :=
    if max_score > 0 then min (95 / 100) ((max_score : ℚ) / 5) else 1 / 2
  { emotion := max_emotion, sentiment := sentiment, confidence := confidence }

/-- Specification-side first-argmax: the first key of the table whose score
equals the maximum of all scores. -/
def firstKeyOfMax (scores : List (String × ℕ)) : String :=
  let m := (scores.map Prod.snd).foldl max 0
  ((scores.find? (fun p => p.2 == m)).map Prod.fst).getD "neutral"

/-! ### Topic routing (`backend/topic_handlers.py`, `TopicHandler.detect_topic`) -/

def math_ops : List String := ["+", "-", "*", "/", "=", "^", "%"]

def math_topic_words : List String :=
  ["solve", "calculate", "equation", "integral", "derivative", "math",
   "multiply", "divide", "add", "subtract"]

def emotional_topic_words : List String :=
  ["feel", "emotion", "sad", "happy", "angry", "worried", "anxious",
   "depressed", "lonely", "excited", "scared", "frustrated"]

def decision_topic_words : List String :=
  ["should i", "what if", "decide", "choice", "option", "help me choose",
   "which one"]

def random_topic_words : List String :=
  ["joke", "fun", "random", "interesting", "tell me about", "story", "fact"]

def knowledge_topic_words : List String :=
  ["what is", "who is", "how does", "why", "explain", "definition", "meaning"]

def tech_topic_words : List String :=
  ["code", "programming", "python", "javascript", "html", "css", "algorithm",
   "function"]

/-- `TopicHandler.detect_topic`: ordered first-match classification.  The
operator check runs on the raw message, the word checks on its lower-casing. -/
def detect_topic (message : String) : String :=
  let lower_msg := pyLower message
  if math_ops.any (fun op => pyIn op message)
      || math_topic_words.any (fun w => pyIn w lower_msg) then "math"
  else if emotional_topic_words.any (fun w => pyIn w lower_msg) then "emotional"
  else if decision_topic_words.any (fun w => pyIn w lower_msg) then "decision"
  else if random_topic_words.any (fun w => pyIn w lower_msg) then "random"
  else if knowledge_topic_words.any (fun w => pyIn w lower_msg) then "knowledge"
  else if tech_topic_words.any (fun w => pyIn w lower_msg) then "tech"
  else "general"

/-! ### Math handler (`backend/topic_handlers.py`, `MathHandler`) -/

/-- A Python number as `eval` produces it: its exact value plus whether it is a
float (floats and ints render differently in f-strings). -/
structure PyNum where
  val : ℚ
  isFloat : Bool
  deriving Repr, DecidableEq

def PyNum.add (a b : PyNum) : PyNum := ⟨a.val + b.val, a.isFloat || b.isFloat⟩
def PyNum.sub (a b : PyNum) : PyNum := ⟨a.val - b.val, a.isFloat || b.isFloat⟩
def PyNum.mul (a b : PyNum) : PyNum := ⟨a.val * b.val, a.isFloat || b.isFloat⟩

/-- Python `/`: true division, always a float, `ZeroDivisionError` on zero. -/
def PyNum.div (a b : PyNum) : Option PyNum :=
  if b.val = 0 then none else some ⟨a.val / b.val, true⟩

/-- Python `**` for an integral exponent (a fractional exponent produces an
irrational float, outside the `ℚ` model; no claim reaches it). -/
def PyNum.pow (a b : PyNum) : Option PyNum :=
  if b.val.den ≠ 1 then none
  else if b.val.num ≥ 0 then
    some ⟨a.val ^ b.val.num.toNat, a.isFloat || b.isFloat⟩
  else if a.val = 0 then none
  else some ⟨(a.val ^ b.val.num.natAbs)⁻¹, true⟩

/-- Rendering of a Python number in an f-string: ints bare, floats with a
decimal point. -/
def PyNum.render (a : PyNum) : String :=
  if a.isFloat then pyFloatRepr a.val else toString a.val.num

inductive MathTok where
  | num (n : PyNum)
  | plus | minus | star | slash | dstar | lparen | rparen
  deriving Repr, DecidableEq

/-- Tokeniser for the sanitised arithmetic expressions `_handle_arithmetic`
feeds to `eval` (digits, `+ - * / . ( )` and spaces; `**` is one token). -/
def mathLex : ℕ → List Char → Option (List MathTok)
  | 0, _ => none
  | _ + 1, [] => some []
  | fuel + 1, c :: t =>
    if c = ' ' then mathLex fuel t
    else if c = '+' then (mathLex fuel t).map (MathTok.plus :: ·)
    else if c = '-' then (mathLex fuel t).map (MathTok.minus :: ·)
    else if c = '*' then
      match t with
      | '*' :: t' => (mathLex fuel t').map (MathTok.dstar :: ·)
      | _ => (mathLex fuel t).map (MathTok.star :: ·)
    else if c = '/' then (mathLex fuel t).map (MathTok.slash :: ·)
    else if c = '(' then (mathLex fuel t).map (MathTok.lparen :: ·)
    else if c = ')' then (mathLex fuel t).map (MathTok.rparen :: ·)
    else if c.isDigit || c = '.' then
      let ip := (c :: t).takeWhile Char.isDigit
      let rest := (c :: t).dropWhile Char.isDigit
      match rest with
      | '.' :: r =>
        let fp := r.takeWhile Char.isDigit
        if ip = [] ∧ fp = [] then none
        else
          (mathLex fuel (r.dropWhile Char.isDigit)).map
            (MathTok.num ⟨(digitsVal ip : ℚ) + (digitsVal fp : ℚ) / (10 : ℚ) ^ fp.length,
              true⟩ :: ·)
      | _ => (mathLex fuel rest).map (MathTok.num ⟨(digitsVal ip : ℚ), false⟩ :: ·)
    else none

mutual

/-- `expr := term (('+'|'-') term)*`. -/
def parseExpr : ℕ → List MathTok → Option (PyNum × List MathTok)
  | 0, _ => none
  | fuel + 1, ts => do
    let (a, ts) ← parseTerm fuel ts
    parseExprRest fuel a ts

def parseExprRest : ℕ → PyNum → List MathTok → Option (PyNum × List MathTok)
  | 0, _, _ => none
  | fuel + 1, a, MathTok.plus :: ts => do
    let (b, ts) ← parseTerm fuel ts
    parseExprRest fuel (a.add b) ts
  | fuel + 1, a, MathTok.minus :: ts => do
    let (b, ts) ← parseTerm fuel ts
    parseExprRest fuel (a.sub b) ts
  | _ + 1, a, ts => some (a, ts)

/-- `term := factor (('*'|'/') factor)*`. -/
def parseTerm : ℕ → List MathTok → Option (PyNum × List MathTok)
  | 0, _ => none
  | fuel + 1, ts => do
    let (a, ts) ← parseFactor fuel ts
    parseTermRest fuel a ts

def parseTermRest : ℕ → PyNum → List MathTok → Option (PyNum × List MathTok)
  | 0, _, _ => none
  | fuel + 1, a, MathTok.star :: ts => do
    let (b, ts) ← parseFactor fuel ts
    parseTermRest fuel (a.mul b) ts
  | fuel + 1, a, MathTok.slash :: ts => do
    let (b, ts) ← parseFactor fuel ts
    let q ← a.div b
    parseTermRest fuel q ts
  | _ + 1, a, ts => some (a, ts)

/-- `factor := ('+'|'-') factor | power` (Python unary signs). -/
def parseFactor : ℕ → List MathTok → Option (PyNum × List MathTok)
  | 0, _ => none
  | fuel + 1, MathTok.plus :: ts => parseFactor fuel ts
  | fuel + 1, MathTok.minus :: ts => do
    let (a, ts) ← parseFactor fuel ts
    some (⟨-a.val, a.isFloat⟩, ts)
  | fuel + 1, ts => parsePower fuel ts

/-- `power := atom ('**' factor)?` (right-associative, exponent may carry a
unary sign). -/
def parsePower : ℕ → List MathTok → Option (PyNum × List MathTok)
  | 0, _ => none
  | fuel + 1, ts => do
    let (a, ts) ← parseAtom fuel ts
    match ts with
    | MathTok.dstar :: ts' => do
      let (b, ts'') ← parseFactor fuel ts'
      let q ← a.pow b
      some (q, ts'')
    | _ => some (a, ts)

def parseAtom : ℕ → List MathTok → Option (PyNum × List MathTok)
  | 0, _ => none
  | _ + 1, MathTok.num n :: ts => some (n, ts)
  | fuel + 1, MathTok.lparen :: ts => do
    let (a, ts) ← parseExpr fuel ts
    match ts with
    | MathTok.rparen :: ts' => some (a, ts')
    | _ => none
  | _ + 1, _ => none

end

/-- Python `eval` on the sanitised arithmetic character set; `none` where eval
raises (syntax error, division by zero). -/
def pyEvalArith (expr : List Char) : Option PyNum := do
  let ts ← mathLex (expr.length + 1) expr
  let (a, rest) ← parseExpr (8 * (ts.length + 1)) ts
  if rest = [] then some a else none

/-- `MathHandler._handle_arithmetic`. -/
def handle_arithmetic (expression : String) : String :=
  let expr := pyReplace (pyReplace (pyReplace expression "x" "*") "^" "**") "÷" "/"
  let expr := expr.toList.filter (fun c => c.isDigit || "+-*/.() ".toList.contains c)
  if expr ≠ [] then
    match pyEvalArith expr with
    | some result =>
      "**" ++ result.render ++ "**\n\nCalculation: " ++ expression ++ " = "
        ++ result.render ++ "\n\nStep by step:\n- Input: " ++ expression
        ++ "\n- Result: " ++ result.render
    | none => "I couldn't parse this mathematical expression. Try something like '25 * 4' or '100 / 5'"
  else "I need a clearer mathematical expression to solve."

/-- Maximal decimal-number matches of `re.findall(r'\d+(?:\.\d+)?', s)`, fuelled
by the text length. -/
def findNumbersAux : ℕ → List Char → List (List Char)
  | 0, _ => []
  | _ + 1, [] => []
  | fuel + 1, c :: t =>
    if c.isDigit then
      let ds := (c :: t).takeWhile Char.isDigit
      let rest := (c :: t).dropWhile Char.isDigit
      match rest with
      | '.' :: r =>
        let fs := r.takeWhile Char.isDigit
        if fs = [] then ds :: findNumbersAux fuel rest
        else (ds ++ '.' :: fs) :: findNumbersAux fuel (r.dropWhile Char.isDigit)
      | _ => ds :: findNumbersAux fuel rest
    else findNumbersAux fuel t

def findNumbers (s : String) : List String :=
  (findNumbersAux s.toList.length s.toList).map String.mk

/-- The numeric core of `MathHandler._handle_percentage`: the computed
`(percent, value, result)` triple on the `"N% of M"` path, `none` where the
handler falls through to its templated guidance. -/
def percentage_result (problem : String) : Option (ℚ × ℚ × ℚ) :=
  match findNumbers problem with
  | a :: b :: _ =>
    if pyIn "of" problem then do
      let percent ← pyFloat? a
      let value ← pyFloat? b
      some (percent, value, percent / 100 * value)
    else none
  | _ => none

/-- `MathHandler._handle_percentage`. -/
def handle_percentage (problem : String) : String :=
  match findNumbers problem with
  | a :: b :: _ =>
    if pyIn "of" problem then
      match pyFloat? a, pyFloat? b with
      | some percent, some value =>
        let result := percent / 100 * value
        "**" ++ pyFloatRepr percent ++ "% of " ++ pyFloatRepr value ++ " = "
          ++ pyFloatRepr result ++ "**\n\nCalculation: (" ++ pyFloatRepr percent
          ++ " ÷ 100) × " ++ pyFloatRepr value ++ " = " ++ pyFloatRepr result
      | _, _ => "For percentage problems, try asking: 'What is 20% of 80?' or 'Calculate 25% of 120'"
    else "For percentages, try: 'What is 20% of 80?' or 'Calculate 15% of 200'"
  | _ => "For percentage problems, try asking: 'What is 20% of 80?' or 'Calculate 25% of 120'"

/-- The linear-equation core of `MathHandler._handle_equation`: the solved `x`,
or `none` where the Python code raises into its `except` (bad split, failed
`float()`, division by zero). -/
def equation_solution (equation : String) : Option ℚ :=
  match pySplitChar '=' equation with
  | [left, right] =>
    let left := pyStrip left
    let right := pyStrip right
    if pyIn "+" left then
      match pySplitChar '+' left with
      | p0 :: p1 :: _ => do
        let (coeffStr, constStr) :=
          if pyIn "x" p0 then (pyStrip (pyReplace p0 "x" ""), pyStrip p1)
          else (pyStrip (pyReplace p1 "x" ""), pyStrip p0)
        let coeffStr := if coeffStr = "" then "1" else coeffStr
        let coeff ← pyFloat? coeffStr
        let c ← pyFloat? constStr
        let rhs ← pyFloat? right
        if coeff = 0 then none else some ((rhs - c) / coeff)
      | _ => none
    else if pyIn "-" left then
      match pySplitChar '-' left with
      | p0 :: p1 :: _ => do
        let (coeffStr, c) ←
          if pyIn "x" p0 then do
            let v ← pyFloat? (pyStrip p1)
            let cs := pyStrip (pyReplace p0 "x" "")
            some (if cs = "" then "1" else cs, -v)
          else do
            let v ← pyFloat? (pyStrip p0)
            let cs := pyStrip (pyReplace p1 "x" "")
            some (if cs = "" then "1" else cs, -v)
        let coeff ← pyFloat? coeffStr
        let rhs ← pyFloat? right
        if coeff = 0 then none else some ((rhs - c) / coeff)
      | _ => none
    else do
      let coeffStr := pyStrip (pyReplace left "x" "")
      let coeffStr := if coeffStr = "" then "1" else coeffStr
      let coeff ← pyFloat? coeffStr
      let rhs ← pyFloat? right
      if coeff = 0 then none else some (rhs / coeff)
  | _ => none

/-- `MathHandler._handle_equation`: solution message, or the clarification
template where the solver core raises or there is no `=`. -/
def handle_equation (equation : String) : String :=
  match equation_solution equation with
  | some x =>
    "**Solution: x = " ++ pyFloatRepr x ++ "**\n\nStep by step:\n1. Original equation: "
      ++ equation ++ "\n2. Solving for x: x = " ++ pyFloatRepr x
      ++ "\n\nVerification: Substitute x = " ++ pyFloatRepr x
      ++ " back into the equation to check!"
  | none => "I can solve simple linear equations like '2x + 5 = 15' or '3x - 7 = 20'. Could you rephrase your equation?"

/-- `MathHandler._handle_word_problem`. -/
def handle_word_problem (problem : String) : String :=
  let lower_problem := pyLower problem
  if pyIn "age" lower_problem || pyIn "years old" lower_problem then
    "I can help with age problems! For example: 'If John is 5 years older than Mary, and Mary is 20, how old is John?' The answer would be 25 years old."
  else if pyIn "cost" lower_problem || pyIn "price" lower_problem || pyIn "$" problem then
    "For money problems, I can help! For example: 'If 3 apples cost $6, how much does 1 apple cost?' The answer would be $2 per apple."
  else
    "I can help with word problems! Try rephrasing with specific numbers and operations, like: 'If I have 10 apples and eat 3, how many are left?'"

def word_problem_words : List String :=
  ["age", "years", "cost", "price", "distance", "speed", "time"]

/-- `MathHandler.solve_math` (every branch of its body is total in this model,
so the outer `except` clause is unreachable). -/
def solve_math (question : String) : String :=
  let clean_q := pyStrip (pyReplace (pyReplace (pyReplace (pyLower question)
    "solve" "") "calculate" "") "what is" "")
  if pyIn "%" clean_q || pyIn "percent" clean_q then
    handle_percentage clean_q
  else if ¬ pyIn "=" clean_q ∧ ¬ (["x", "y", "z"].any (fun v => pyIn v clean_q)) then
    handle_arithmetic clean_q
  else if pyIn "=" clean_q ∧ pyIn "x" clean_q then
    handle_equation clean_q
  else if word_problem_words.any (fun w => pyIn w clean_q) then
    handle_word_problem question
  else
    "I can help with math! Try asking: 'solve 2x + 5 = 15', 'calculate 25 * 4', or 'what is 20% of 80?'"

/-! ### User memory (`backend/user_memory.py`, `UserMemory`)

The on-disk JSON round trip and the ISO timestamps stored in entries are
orthogonal to every property proved here and are left out of the record
types; `update_from_message` is the pure in-memory update the Python method
performs between `load_profile` and `save_profile`. -/

structure Personality where
  communication_style : String
  vocabulary_level : String
  emoji_usage : ℚ
  humor_preference : ℚ
  formality : ℚ
  verbosity : ℚ
  deriving Repr, DecidableEq

structure EmotionEntry where
  emotion : String
  sentiment : ℚ
  deriving Repr, DecidableEq

structure EmotionalProfile where
  baseline_sentiment : ℚ
  emotion_history : List EmotionEntry
  stress_level : ℚ
  deriving Repr, DecidableEq

structure CommunicationPatterns where
  sentence_structure : String
  question_frequency : ℚ
  average_message_length : ℚ
  deriving Repr, DecidableEq

structure MemoryFacts where
  name : Option String
  age : Option ℤ
  location : Option String
  job : Option String
  goals : List String
  challenges : List String
  achievements : List String
  likes : List String
  dislikes : List String
  deriving Repr, DecidableEq

structure HistoryEntry where
  message : String
  emotion : Option EmotionResult
  deriving Repr, DecidableEq

structure Statistics where
  total_messages : ℕ
  deriving Repr, DecidableEq

structure Profile where
  personality : Personality
  conversation_history : List HistoryEntry
  memory_facts : MemoryFacts
  emotional_profile : EmotionalProfile
  communication_patterns : CommunicationPatterns
  statistics : Statistics
  deriving Repr, DecidableEq

/-- `UserMemory._create_new_profile` (the fields the claims concern, with the
defaults of the source). -/
def new_profile : Profile :=
  { personality :=
      { communication_style := "neutral", vocabulary_level := "medium",
        emoji_usage := 0, humor_preference := 1 / 2, formality := 1 / 2,
        verbosity := 1 / 2 }
    conversation_history := []
    memory_facts :=
      { name := none, age := none, location := none, job := none,
        goals := [], challenges := [], achievements := [], likes := [],
        dislikes := [] }
    emotional_profile :=
      { baseline_sentiment := 0, emotion_history := [], stress_level := 0 }
    communication_patterns :=
      { sentence_structure := "medium", question_frequency := 0,
        average_message_length := 0 }
    statistics := { total_messages := 0 } }

/-- The emoji set literal of `_analyze_communication_style`. -/
def emoji_chars : String :=
  "😀😁😂🤣😃😄😅😆😉😊😋😎😍😘🥰😗😙😚😇🙂🙃😉😌😍🥰😘😗😙😚😇🙂🙃😌😝😜😛🤪🤨🧐🤓"

/-- The emoji-class test of `_analyze_communication_style`:
`ord(char) > 127000 or char in "😀…"`. -/
def isEmojiClass (c : Char) : Bool :=
  c.toNat > 127000 || emoji_chars.toList.contains c

def formal_words : List String :=
  ["please", "thank", "kindly", "appreciate", "sincerely", "respectfully", "regards"]

def casual_words : List String :=
  ["hey", "yo", "sup", "gonna", "wanna", "yeah", "ok", "lol"]

/-- `UserMemory._analyze_communication_style`: emoji-usage smoothing, formality
nudges, rolling average message length, verbosity nudges, question-frequency
smoothing. -/
def analyze_communication_style (profile : Profile) (message : String) : Profile :=
  let emoji_count : ℕ := message.toList.countP (fun c => isEmojiClass c)
  let emoji_usage := profile.personality.emoji_usage * (9 / 10)
    + ((emoji_count : ℚ) / (max message.toList.length 1 : ℕ)) * (1 / 10)
  let lower := pyLower message
  let formal_count := keywordScore formal_words 1 lower
  let casual_count := keywordScore casual_words 1 lower
  let formality :=
    if formal_count > casual_count then min (profile.personality.formality + 1 / 10) 1
    else if casual_count > formal_count then max (profile.personality.formality - 1 / 10) 0
    else profile.personality.formality
  let word_count : ℕ := (pySplitWs message).length
  let average_message_length :=
    if profile.communication_patterns.average_message_length = 0 then (word_count : ℚ)
    else profile.communication_patterns.average_message_length * (9 / 10)
      + (word_count : ℚ) * (1 / 10)
  let verbosity :=
    if word_count > 30 then min (profile.personality.verbosity + 5 / 100) 1
    else if word_count < 10 then max (profile.personality.verbosity - 5 / 100) 0
    else profile.personality.verbosity
  let is_question := pyStripEndsWith message '?'
  let question_frequency := profile.communication_patterns.question_frequency * (95 / 100)
    + (if is_question then (1 : ℚ) else 0) * (5 / 100)
  { profile with
    personality := { profile.personality with
      emoji_usage := emoji_usage, formality := formality, verbosity := verbosity }
    communication_patterns := { profile.communication_patterns with
      average_message_length := average_message_length,
      question_frequency := question_frequency } }

/-- `UserMemory._update_emotional_profile`: append the reading, keep the last
50, recompute the baseline as the mean of the last 20 retained sentiments. -/
def update_emotional_profile (profile : Profile) (emotion : Option EmotionResult) : Profile :=
  match emotion with
  | none => profile
  | some e =>
    let h := profile.emotional_profile.emotion_history
      ++ [{ emotion := e.emotion, sentiment := e.sentiment }]
    let h := if h.length > 50 then h.drop (h.length - 50) else h
    let recent := h.drop (h.length - min h.length 20)
    let baseline :=
      if recent ≠ [] then (recent.map EmotionEntry.sentiment).sum / recent.length
      else profile.emotional_profile.baseline_sentiment
    { profile with emotional_profile := { profile.emotional_profile with
        emotion_history := h, baseline_sentiment := baseline } }

/-- Python `\w` character class (word characters), ASCII fragment. -/
def wordChar (c : Char) : Bool := c.isAlphanum || c = '_'

/-- Search for regex `lit(\w+)`: at the first position where the literal is
followed by at least one word character, capture the maximal run. -/
def searchLitCapture (lit : List Char) : List Char → Option (List Char)
  | [] => none
  | c :: t =>
    if lit.isPrefixOf (c :: t) then
      let cap := (List.drop lit.length (c :: t)).takeWhile wordChar
      if cap ≠ [] then some cap else searchLitCapture lit t
    else searchLitCapture lit t

/-- Search for regex `pre(\d+)post`: maximal digit run (the suffix literal
starts with a non-digit, so regex backtracking never shortens it). -/
def searchNumCapture (pre post : List Char) : List Char → Option (List Char)
  | [] => none
  | c :: t =>
    if pre.isPrefixOf (c :: t) then
      let after := List.drop pre.length (c :: t)
      let ds := after.takeWhile Char.isDigit
      if ds ≠ [] ∧ post.isPrefixOf (after.drop ds.length) then some ds
      else searchNumCapture pre post t
    else searchNumCapture pre post t

def wordSpaceChar (c : Char) : Bool := wordChar c || pySpace c

/-- Greedy capture with backtracking for `([\w\s]+)post`: the longest nonempty
prefix of the word/space run after which the suffix literal matches. -/
def capWithPost (post : List Char) (after : List Char) : Option (List Char) :=
  let run := after.takeWhile wordSpaceChar
  (List.range run.length).reverse.findSome? (fun k =>
    if post.isPrefixOf (after.drop (k + 1)) then some (after.take (k + 1)) else none)

/-- Search for regex `pre alt?([\w\s]+)post` where `alt?` tries the given
alternatives in order and then the empty string (regex alternation with
backtracking). -/
def searchPhraseCapture (pre : List Char) (alts : List (List Char))
    (post : List Char) : List Char → Option (List Char)
  | [] => none
  | c :: t =>
    if pre.isPrefixOf (c :: t) then
      let after := List.drop pre.length (c :: t)
      match (alts ++ [[]]).findSome? (fun (alt : List Char) =>
        if alt.isPrefixOf after then capWithPost post (after.drop alt.length)
        else none) with
      | some cap => some cap
      | none => searchPhraseCapture pre alts post t
    else searchPhraseCapture pre alts post t

/-- Search for regex `pre alt?(a|b|…)` over literal alternatives: each entry
pairs the text that must match with the part of it that the group captures
(the optional `a `/`an ` is folded into the entries, in regex branch order). -/
def searchAltCapture (pre : List Char) (alts : List (List Char × List Char)) :
    List Char → Option (List Char)
  | [] => none
  | c :: t =>
    if pre.isPrefixOf (c :: t) then
      let after := List.drop pre.length (c :: t)
      match alts.findSome? (fun (alt : List Char × List Char) =>
        if alt.1.isPrefixOf after then some alt.2 else none) with
      | some cap => some cap
      | none => searchAltCapture pre alts t
    else searchAltCapture pre alts t

def job_title_words : List String :=
  ["teacher", "doctor", "engineer", "student", "programmer", "developer",
   "designer", "manager"]

def goal_keywords : List String :=
  ["want to", "hope to", "plan to", "goal is", "dream is", "trying to"]

def challenge_keywords : List String :=
  ["worried about", "anxious about", "stressed about", "problem with",
   "struggling with"]

def achievement_keywords : List String :=
  ["proud of", "accomplished", "achieved", "succeeded", "won", "graduated"]

/-- `UserMemory._extract_facts`: its ordered pattern rules over the lower-cased
message (later patterns of a group overwrite earlier ones, as the Python loop
assigns on every match). -/
def extract_facts (profile : Profile) (message : String) : Profile :=
  let lower_msg := pyLower message
  let l := lower_msg.toList
  let facts := profile.memory_facts
  -- name: r"my name is (\w+)", r"i'm (\w+)", r"call me (\w+)", r"i am (\w+)", kept when longer than 2
  let name := ["my name is ", "i'm ", "call me ", "i am "].foldl
    (fun acc pat =>
      match searchLitCapture pat.toList l with
      | some cap => if cap.length > 2 then some (String.mk (pyTitleWord cap)) else acc
      | none => acc) facts.name
  -- age: r"i am (\d+) years old", r"i'm (\d+) years old", r"i am (\d+)", r"age (\d+)", kept in 5..120
  let age := [("i am ", " years old"), ("i'm ", " years old"), ("i am ", ""), ("age ", "")].foldl
    (fun acc pat =>
      match searchNumCapture pat.1.toList pat.2.toList l with
      | some ds =>
        let a : ℤ := digitsVal ds
        if 5 ≤ a ∧ a ≤ 120 then some a else acc
      | none => acc) facts.age
  -- location: r"i live in ([\w\s]+)" etc., kept when at most 3 words
  let location := ["i live in ", "i'm from ", "living in ", "born in "].foldl
    (fun acc pat =>
      match searchPhraseCapture pat.toList [] [] l with
      | some cap =>
        let loc := pyTitle (pyStrip (String.mk cap))
        if (pySplitWs loc).length ≤ 3 then some loc else acc
      | none => acc) facts.location
  -- job: r"i work as (?:a |an )?([\w\s]+)" etc., kept when at most 4 words
  let jobCaps : List (Option (List Char)) :=
    [searchPhraseCapture "i work as ".toList ["a ".toList, "an ".toList] [] l,
     searchPhraseCapture "i'm ".toList ["a ".toList, "an ".toList] " by profession".toList l,
     searchPhraseCapture "my job is ".toList [] [] l,
     searchAltCapture "i am ".toList
       (job_title_words.map (fun w => (("a " ++ w).toList, w.toList))
         ++ job_title_words.map (fun w => (("an " ++ w).toList, w.toList))
         ++ job_title_words.map (fun w => (w.toList, w.toList))) l]
  let job := jobCaps.foldl
    (fun acc cap =>
      match cap with
      | some cap =>
        let j := pyTitle (pyStrip (String.mk cap))
        if (pySplitWs j).length ≤ 4 then some j else acc
      | none => acc) facts.job
  let goals := if goal_keywords.any (fun k => pyIn k lower_msg) then
      facts.goals ++ [message] else facts.goals
  let challenges := if challenge_keywords.any (fun k => pyIn k lower_msg) then
      facts.challenges ++ [message] else facts.challenges
  let achievements := if achievement_keywords.any (fun k => pyIn k lower_msg) then
      facts.achievements ++ [message] else facts.achievements
  let (likes, dislikes) :=
    if pyIn "i love" lower_msg || pyIn "i really like" lower_msg then
      (facts.likes ++ [message], facts.dislikes)
    else if pyIn "i hate" lower_msg || pyIn "i dislike" lower_msg then
      (facts.likes, facts.dislikes ++ [message])
    else (facts.likes, facts.dislikes)
  { profile with memory_facts :=
      { name := name, age := age, location := location, job := job,
        goals := goals, challenges := challenges, achievements := achievements,
        likes := likes, dislikes := dislikes } }

/-- `UserMemory.update_from_message`: counter, style, emotional profile, facts,
then the conversation-history append truncated to the last 100. -/
def update_from_message (profile : Profile) (message : String)
    (emotion : Option EmotionResult) : Profile :=
  let profile := { profile with statistics :=
    { profile.statistics with total_messages := profile.statistics.total_messages + 1 } }
  let profile := analyze_communication_style profile message
  let profile := update_emotional_profile profile emotion
  let profile := extract_facts profile message
  let h := profile.conversation_history ++ [{ message := message, emotion := emotion }]
  let h := if h.length > 100 then h.drop (h.length - 100) else h
  { profile with conversation_history := h }

/-- The profile mutation the `/api/chat` endpoint of `backend/simple_main.py`
performs for a message: `chat` calls `generate_ultimate_response`, whose first
step is `memory.update_from_message(user_id, message, emotion_data)` with
`emotion_data = analyze_emotion_and_context(message)` — unconditionally, with
no emptiness or validity check on the message. -/
def chat_profile_update (profile : Profile) (message : String) : Profile :=
  update_from_message profile message (some (analyze_emotion_and_context message))

/-! ### Rate limiter and provider engine (`backend/groq_engine.py`)

`time.time()` is threaded explicitly as the `now : ℚ` argument; the deque of
request timestamps is a list with its front at the head. -/

structure RateLimiter where
  max_requests : ℕ
  time_window : ℚ
  requests : List ℚ
  deriving Repr, DecidableEq

/-- `RateLimiter.can_make_request`: pops expired timestamps from the front of
the deque (`while requests and requests[0] <= now - time_window: popleft()`),
then compares the retained count with the quota.  Returns the mutated limiter
together with the boolean. -/
def can_make_request (now : ℚ) (rl : RateLimiter) : RateLimiter × Bool :=
  let kept := rl.requests.dropWhile (fun t => t ≤ now - rl.time_window)
  ({ rl with requests := kept }, kept.length < rl.max_requests)

/-- `RateLimiter.add_request`: appends the current time. -/
def add_request (now : ℚ) (rl : RateLimiter) : RateLimiter :=
  { rl with requests := rl.requests ++ [now] }

/-- `GroqEngine.wait_for_rate_limit`: zero when a slot is free, else the time
until the oldest retained timestamp leaves the window (clamped at zero), zero
again when nothing is retained. -/
def wait_for_rate_limit (now : ℚ) (rl : RateLimiter) : ℚ :=
  let (rl', ok) := can_make_request now rl
  if ok then 0
  else
    match rl'.requests with
    | oldest :: _ => max 0 (oldest + rl.time_window - now)
    | [] => 0

structure GroqExchange where
  user : String
  assistant : String
  deriving Repr, DecidableEq

/-- The provider-side per-conversation history of `GroqEngine`, an association
list keyed by conversation id (the Python dict). -/
def GroqHistory := List (String × List GroqExchange)

instance : DecidableEq GroqHistory := by
  unfold GroqHistory; infer_instance

def GroqHistory.get : GroqHistory → String → Option (List GroqExchange)
  | [], _ => none
  | (k, v) :: t, conversation_id =>
    if conversation_id = k then some v else GroqHistory.get t conversation_id

def GroqHistory.set (h : GroqHistory) (conversation_id : String)
    (v : List GroqExchange) : GroqHistory :=
  match h with
  | [] => [(conversation_id, v)]
  | (k, w) :: t =>
    if k = conversation_id then (k, v) :: t
    else (k, w) :: GroqHistory.set t conversation_id v

/-- `GroqEngine._update_conversation`: append the exchange for the id, keep
only the last 20. -/
def update_conversation (h : GroqHistory) (conversation_id user_message
    ai_response : String) : GroqHistory :=
  let cur := (h.get conversation_id).getD []
  let cur := cur ++ [{ user := user_message, assistant := ai_response }]
  let cur := if cur.length > 20 then cur.drop (cur.length - 20) else cur
  h.set conversation_id cur

def sadness_fallbacks : List String :=
  ["I understand you're feeling sad. I'm here to listen and support you.",
   "It's okay to feel sad sometimes. Would you like to talk about what's bothering you?",
   "I can sense you're going through a difficult time. How can I help?"]

def joy_fallbacks : List String :=
  ["I'm so glad to hear you're feeling happy! What's bringing you joy today?",
   "Your positive energy is wonderful! Tell me more about what's making you smile.",
   "It's great that you're feeling good! I'd love to hear what's going well for you."]

def anger_fallbacks : List String :=
  ["I can tell you're frustrated. Take a deep breath. I'm here to help.",
   "It sounds like you're dealing with something difficult. Want to talk it through?",
   "I understand you're upset. Sometimes it helps to express what's bothering you."]

def fear_fallbacks : List String :=
  ["It's natural to feel scared sometimes. You're safe here with me.",
   "I can sense your worry. What's making you feel anxious?",
   "Fear can be overwhelming. Let's work through this together."]

def other_emotion_fallbacks : List String :=
  ["I'm here to chat with you. What's on your mind?",
   "How are you feeling today? I'd love to hear from you.",
   "Thanks for sharing with me. Tell me more!"]

def no_emotion_fallbacks : List String :=
  ["I'm here to help! What would you like to talk about?",
   "That's interesting! Tell me more about that.",
   "I'd love to hear your thoughts on this. Can you elaborate?",
   "Thanks for sharing that with me. What else would you like to discuss?"]

/-- The emotion-keyed template table `GroqEngine._get_fallback_response`
draws from (keyed on `user_emotion.get("emotion", "neutral").lower()`). -/
def fallback_table (user_emotion : Option EmotionResult) : List String :=
  match user_emotion with
  | some e =>
    let emotion := pyLower e.emotion
    if emotion = "sadness" ∨ emotion = "sad" then sadness_fallbacks
    else if emotion = "joy" ∨ emotion = "happy" then joy_fallbacks
    else if emotion = "anger" ∨ emotion = "angry" then anger_fallbacks
    else if emotion = "fear" ∨ emotion = "scared" then fear_fallbacks
    else other_emotion_fallbacks
  | none => no_emotion_fallbacks

/-- `GroqEngine._get_fallback_response`; `random.choice` is modelled by an
arbitrary index taken mod the table length. -/
def get_fallback_response (user_emotion : Option EmotionResult) (choice : ℕ) :
    String :=
  let t := fallback_table user_emotion
  t.getD (choice % t.length) ""

structure GroqState where
  rate_limiter : RateLimiter
  conversation_history : GroqHistory
  deriving DecidableEq

/-- The outcome of the one external call inside `generate_response`
(`client.chat.completions.create`): the completion content, or an exception. -/
def ProviderOutcome := Except Unit String

/-- `GroqEngine.generate_response` with `stream=False`.  `Except.error`
models the rate-limit exception the method itself raises before the provider
call; every path past that point returns normally (`Except.ok`), since the
provider exception is caught and answered with a fallback template.  On the
fallback path the Python method returns without calling
`_update_conversation`. -/
def generate_response (now : ℚ) (st : GroqState) (message conversation_id : String)
    (user_emotion : Option EmotionResult) (provider : ProviderOutcome)
    (choice : ℕ) : Except String (String × GroqState) :=
  let checked := can_make_request now st.rate_limiter
  let st1 : GroqState := { st with rate_limiter := checked.1 }
  if ¬ checked.2 ∧ wait_for_rate_limit now st1.rate_limiter > 0 then
    Except.error "Rate limit exceeded."
  else
    let st2 : GroqState := { st1 with rate_limiter := add_request now st1.rate_limiter }
    match provider with
    | Except.ok content =>
      Except.ok (content,
        { st2 with conversation_history :=
            update_conversation st2.conversation_history conversation_id message content })
    | Except.error _ =>
      Except.ok (get_fallback_response user_emotion choice, st2)

/-! ## Theorems -/

attribute [local semireducible] Rat.add Rat.sub Rat.mul Rat.inv

set_option maxRecDepth 100000

/-- Single-character substring search is list membership. -/
lemma pySubstr_singleton (c : Char) (l : List Char) :
    pySubstr [c] l = l.contains c := by
  induction l with
  | nil => rfl
  | cons x t ih =>
    simp only [pySubstr, List.isPrefixOf, List.contains_cons]
    cases h : c == x <;> simp [h, ih]

/-- C5: the message "2x + 5 = 15" is routed to the math topic by
`detect_topic`, and `MathHandler.solve_math` solves it: the equation core
computes x = 5 and the returned response states `Solution: x = 5.0`. -/
theorem equation_message_routed_and_solved :
    detect_topic "2x + 5 = 15" = "math" ∧
    equation_solution "2x + 5 = 15" = some 5 ∧
    solve_math "2x + 5 = 15" =
      "**Solution: x = 5.0**\n\nStep by step:\n1. Original equation: 2x + 5 = 15\n2. Solving for x: x = 5.0\n\nVerification: Substitute x = 5.0 back into the equation to check!" := by
  refine ⟨by decide, by decide, by decide⟩

/-- C6 counterexample: on "What is 20% of 80?" the solver does not return the
bare text "20% of 80 = 16" — floats render with a decimal point and the value
is wrapped in a longer message. -/
theorem percentage_exact_text_counterexample :
    solve_math "What is 20% of 80?" ≠ "20% of 80 = 16" := by decide

/-- C6 amended: on "What is 20% of 80?" the solver computes exactly 16
(percent 20, value 80), but renders the floats with `repr` inside a longer
response: it returns
`**20.0% of 80.0 = 16.0**\n\nCalculation: (20.0 ÷ 100) × 80.0 = 16.0`. -/
theorem percentage_message_value_and_text :
    percentage_result "20% of 80?" = some (20, 80, 16) ∧
    solve_math "What is 20% of 80?" =
      "**20.0% of 80.0 = 16.0**\n\nCalculation: (20.0 ÷ 100) × 80.0 = 16.0" := by
  refine ⟨by decide, by decide⟩

/-- C10: any message containing one of the characters `+ - * / = ^ %` is
classified "math" by `detect_topic`, whatever else it contains. -/
theorem detect_topic_math_on_operator (s : String)
    (h : ∃ c ∈ s.toList, c ∈ ['+', '-', '*', '/', '=', '^', '%']) :
    detect_topic s = "math" := by
  obtain ⟨c, hc, hmem⟩ := h
  have hop : (String.mk [c]) ∈ math_ops := by fin_cases hmem <;> decide
  have hpy : pyIn (String.mk [c]) s = true := by
    show pySubstr [c] s.toList = true
    rw [pySubstr_singleton]
    exact List.elem_iff.mpr hc
  have hone : math_ops.any (fun op => pyIn op s) = true :=
    List.any_eq_true.mpr ⟨_, hop, hpy⟩
  simp [detect_topic, hone]

/-- C10 witness: a purely emotional message containing a hyphen is routed to
math. -/
theorem detect_topic_math_on_operator_witness :
    detect_topic "I feel so sad today - truly" = "math" :=
  detect_topic_math_on_operator "I feel so sad today - truly"
    ⟨'-', by decide, by decide⟩

/-- C7 counterexample: "happy sad" scores joy = 2 and sadness = 2 — a shared
highest score — yet the classifier returns "joy", not "neutral". -/
theorem emotion_tie_counterexample :
    joy_score "happy sad" = 2 ∧ sad_score "happy sad" = 2 ∧
    anger_score "happy sad" = 0 ∧ fear_score "happy sad" = 0 ∧
    surprise_score "happy sad" = 0 ∧
    (analyze_emotion_and_context "happy sad").emotion = "joy" ∧
    (analyze_emotion_and_context "happy sad").emotion ≠ "neutral" := by
  refine ⟨by decide, by decide, by decide, by decide, by decide, by decide, by decide⟩

/-- C8 counterexample: on "happy sad bad" both accumulators equal 2 (nonzero),
yet the secondary polarity lexicon is still consulted and yields -0.3, where
the claim mandates 0.0. -/
theorem sentiment_tie_counterexample :
    positiveAcc "happy sad bad" = 2 ∧ negativeAcc "happy sad bad" = 2 ∧
    (analyze_emotion_and_context "happy sad bad").sentiment = -(3 / 10) ∧
    (analyze_emotion_and_context "happy sad bad").sentiment ≠ 0 := by
  refine ⟨by decide, by decide, by decide, by decide⟩

/-- C9 counterexample: the chat pipeline does not reject the empty message —
processing "" from a fresh profile increments the message counter (0 to 1) and
appends a history entry, so the stored profile is mutated. -/
theorem chat_empty_message_counterexample :
    (chat_profile_update new_profile "").statistics.total_messages = 1 ∧
    new_profile.statistics.total_messages = 0 ∧
    (chat_profile_update new_profile "").conversation_history =
      [{ message := "", emotion := some (analyze_emotion_and_context "") }] ∧
    new_profile.conversation_history = [] := by
  refine ⟨by decide, by decide, by decide, by decide⟩

/-- The seed is below a running maximum. -/
lemma le_foldl_max (l : List ℕ) (b : ℕ) : b ≤ l.foldl max b := by
  induction l generalizing b with
  | nil => exact le_rfl
  | cons x t ih => exact le_trans (le_max_left b x) (ih (max b x))

/-- Every member is below a running maximum. -/
lemma foldl_max_le_of_mem {a : ℕ} {l : List ℕ} (b : ℕ) (h : a ∈ l) : a ≤ l.foldl max b := by
  induction l generalizing b with
  | nil => cases h
  | cons x t ih =>
    rcases List.mem_cons.mp h with rfl | h
    · exact le_trans (le_max_right b a) (le_foldl_max t _)
    · exact ih _ h

/-- The first list entry whose value attains the running maximum is exactly
what Python's `max(keys, key=...)` fold (strict-greater replacement) keeps. -/
lemma find_max_eq_foldl (p : String × ℕ) (ps : List (String × ℕ)) :
    (p :: ps).find? (fun q => q.2 == (ps.map Prod.snd).foldl max p.2) =
      some (ps.foldl (fun best q => if q.2 > best.2 then q else best) p) := by
  induction ps generalizing p with
  | nil => simp [List.find?]
  | cons q t ih =>
    simp only [List.map_cons, List.foldl_cons]
    by_cases hq : q.2 > p.2
    · have hstep : (if q.2 > p.2 then q else p) = q := if_pos hq
      have hplt : p.2 < (t.map Prod.snd).foldl max q.2 :=
        lt_of_lt_of_le hq (le_foldl_max _ _)
      have hmax : max p.2 q.2 = q.2 := max_eq_right (le_of_lt hq)
      rw [hstep, hmax]
      rw [List.find?_cons_of_neg _ (by simp only [beq_iff_eq]; omega)]
      exact ih q
    · have hstep : (if q.2 > p.2 then q else p) = p := if_neg hq
      have hmax : max p.2 q.2 = p.2 := max_eq_left (by omega)
      rw [hstep, hmax]
      have hple : p.2 ≤ (t.map Prod.snd).foldl max p.2 := le_foldl_max _ _
      have hih := ih p
      by_cases hp : p.2 = (t.map Prod.snd).foldl max p.2
      · rw [List.find?_cons_of_pos _ (by simp only [beq_iff_eq]; exact hp)]
        rw [List.find?_cons_of_pos _ (by simp only [beq_iff_eq]; exact hp)] at hih
        exact hih
      · rw [List.find?_cons_of_neg _ (by simp only [beq_iff_eq]; exact hp)]
        rw [List.find?_cons_of_neg _ (by simp only [beq_iff_eq]; omega)]
        rw [List.find?_cons_of_neg _ (by simp only [beq_iff_eq]; exact hp)] at hih
        exact hih

/-- Python's first-wins `max` over the score table picks the first key whose
score attains the maximum. -/
lemma pyMaxByScore_eq_firstKeyOfMax (p : String × ℕ) (ps : List (String × ℕ)) :
    pyMaxByScore (p :: ps) = firstKeyOfMax (p :: ps) := by
  unfold pyMaxByScore firstKeyOfMax
  simp only [List.map_cons, List.foldl_cons, Nat.zero_max]
  rw [find_max_eq_foldl]
  rfl

/-- C7 amended: with all five scores zero the classifier returns "neutral";
otherwise it returns the FIRST emotion in the order joy, sadness, anger, fear,
surprise whose score equals the maximum — a strictly-highest score wins, but a
tie among several is resolved to the earliest of them, not to "neutral". -/
theorem emotion_winner_is_first_argmax (text : String) :
    (analyze_emotion_and_context text).emotion =
      if joy_score text = 0 ∧ sad_score text = 0 ∧ anger_score text = 0 ∧
          fear_score text = 0 ∧ surprise_score text = 0 then "neutral"
      else firstKeyOfMax (emotionScores text) := by
  simp only [analyze_emotion_and_context, emotionScores]
  by_cases h : joy_score text = 0 ∧ sad_score text = 0 ∧ anger_score text = 0 ∧
      fear_score text = 0 ∧ surprise_score text = 0
  · obtain ⟨h1, h2, h3, h4, h5⟩ := h
    rw [h1, h2, h3, h4, h5]
    decide
  · have hpos : 0 < ([(("joy" : String), joy_score text), ("sadness", sad_score text),
        ("anger", anger_score text), ("fear", fear_score text),
        ("surprise", surprise_score text)].map Prod.snd).foldl max 0 := by
      rcases Nat.eq_zero_or_pos (([(("joy" : String), joy_score text), ("sadness", sad_score text),
          ("anger", anger_score text), ("fear", fear_score text),
          ("surprise", surprise_score text)].map Prod.snd).foldl max 0) with h0 | h0
      · exfalso
        apply h
        have m1 : joy_score text ∈ ([(("joy" : String), joy_score text), ("sadness", sad_score text),
            ("anger", anger_score text), ("fear", fear_score text),
            ("surprise", surprise_score text)].map Prod.snd) := by simp
        have m2 : sad_score text ∈ ([(("joy" : String), joy_score text), ("sadness", sad_score text),
            ("anger", anger_score text), ("fear", fear_score text),
            ("surprise", surprise_score text)].map Prod.snd) := by simp
        have m3 : anger_score text ∈ ([(("joy" : String), joy_score text), ("sadness", sad_score text),
            ("anger", anger_score text), ("fear", fear_score text),
            ("surprise", surprise_score text)].map Prod.snd) := by simp
        have m4 : fear_score text ∈ ([(("joy" : String), joy_score text), ("sadness", sad_score text),
            ("anger", anger_score text), ("fear", fear_score text),
            ("surprise", surprise_score text)].map Prod.snd) := by simp
        have m5 : surprise_score text ∈ ([(("joy" : String), joy_score text), ("sadness", sad_score text),
            ("anger", anger_score text), ("fear", fear_score text),
            ("surprise", surprise_score text)].map Prod.snd) := by simp
        have n1 := foldl_max_le_of_mem 0 m1
        have n2 := foldl_max_le_of_mem 0 m2
        have n3 := foldl_max_le_of_mem 0 m3
        have n4 := foldl_max_le_of_mem 0 m4
        have n5 := foldl_max_le_of_mem 0 m5
        exact ⟨by omega, by omega, by omega, by omega, by omega⟩
      · exact h0
    rw [if_neg h, if_pos hpos]
    exact pyMaxByScore_eq_firstKeyOfMax _ _

/-- C8 amended: sentiment is `min(0.8, pos/10)` (strictly positive) when the
positive accumulator strictly exceeds the negative one, the negated symmetric
value when the negative strictly exceeds, and otherwise — whenever the two
accumulators are merely EQUAL, zero or not — the secondary polarity lexicon is
consulted. -/
theorem sentiment_accumulator_cases (text : String) :
    (positiveAcc text > negativeAcc text →
      (analyze_emotion_and_context text).sentiment
          = min (8 / 10) ((positiveAcc text : ℚ) / 10) ∧
        0 < (analyze_emotion_and_context text).sentiment ∧
        (analyze_emotion_and_context text).sentiment ≤ 8 / 10) ∧
    (negativeAcc text > positiveAcc text →
      (analyze_emotion_and_context text).sentiment
          = -(min (8 / 10) ((negativeAcc text : ℚ) / 10)) ∧
        (analyze_emotion_and_context text).sentiment < 0 ∧
        -(8 / 10) ≤ (analyze_emotion_and_context text).sentiment) ∧
    (positiveAcc text = negativeAcc text →
      (analyze_emotion_and_context text).sentiment = indicatorSentiment (pyLower text)) := by
  simp only [analyze_emotion_and_context]
  refine ⟨fun h => ?_, fun h => ?_, fun h => ?_⟩
  · rw [if_pos h]
    have h1 : (1 : ℚ) ≤ (positiveAcc text : ℚ) := by
      have : 1 ≤ positiveAcc text := by omega
      exact_mod_cast this
    have hmin : 0 < min ((8 : ℚ) / 10) ((positiveAcc text : ℚ) / 10) :=
      lt_min (by norm_num) (by linarith)
    exact ⟨rfl, hmin, min_le_left _ _⟩
  · rw [if_neg (by omega), if_pos h]
    have h1 : (1 : ℚ) ≤ (negativeAcc text : ℚ) := by
      have : 1 ≤ negativeAcc text := by omega
      exact_mod_cast this
    have hmin : 0 < min ((8 : ℚ) / 10) ((negativeAcc text : ℚ) / 10) :=
      lt_min (by norm_num) (by linarith)
    refine ⟨rfl, by linarith, ?_⟩
    have := min_le_left ((8 : ℚ) / 10) ((negativeAcc text : ℚ) / 10)
    linarith
  · rw [if_neg (by omega), if_neg (by omega)]

/-- The last element survives append-then-truncate-to-cap. -/
lemma getLast?_truncate {α : Type} (l : List α) (e : α) (cap : ℕ) (hcap : 0 < cap) :
    ((if (l ++ [e]).length > cap then (l ++ [e]).drop ((l ++ [e]).length - cap)
      else l ++ [e]).getLast?) = some e := by
  have hlen : (l ++ [e]).length = l.length + 1 := by simp
  split_ifs with h
  · rw [List.drop_append_of_le_length (by omega)]
    exact List.getLast?_concat _
  · exact List.getLast?_concat _

/-- C9 amended: the chat endpoint performs no emptiness check — processing the
empty message runs the normal update path on any stored profile, incrementing
its message counter and appending the exchange to its conversation history. -/
theorem chat_empty_message_still_mutates (p : Profile) :
    (chat_profile_update p "").statistics.total_messages
        = p.statistics.total_messages + 1 ∧
    (chat_profile_update p "").conversation_history.getLast?
        = some { message := "", emotion := some (analyze_emotion_and_context "") } := by
  exact ⟨rfl, getLast?_truncate p.conversation_history
    { message := "", emotion := some (analyze_emotion_and_context "") } 100 (by norm_num)⟩


/-- The bounded trait fields the claim requires to stay in [0,1]. -/
def TraitsBounded (p : Profile) : Prop :=
  0 ≤ p.personality.formality ∧ p.personality.formality ≤ 1 ∧
  0 ≤ p.personality.verbosity ∧ p.personality.verbosity ≤ 1 ∧
  0 ≤ p.personality.emoji_usage ∧ p.personality.emoji_usage ≤ 1 ∧
  0 ≤ p.personality.humor_preference ∧ p.personality.humor_preference ≤ 1 ∧
  0 ≤ p.communication_patterns.question_frequency ∧
    p.communication_patterns.question_frequency ≤ 1

/-- One style-inference pass keeps every bounded trait in [0,1]. -/
lemma style_bounded (p : Profile) (m : String) (h : TraitsBounded p) :
    TraitsBounded (analyze_communication_style p m) := by
  obtain ⟨f0, f1, v0, v1, e0, e1, u0, u1, q0, q1⟩ := h
  have hden : (0 : ℚ) < ((max m.toList.length 1 : ℕ) : ℚ) := by
    have h1 : (1 : ℕ) ≤ max m.toList.length 1 := le_max_right _ _
    exact_mod_cast Nat.lt_of_lt_of_le Nat.zero_lt_one h1
  have hr0 : (0 : ℚ) ≤ (m.toList.countP (fun c => isEmojiClass c) : ℚ)
      / ((max m.toList.length 1 : ℕ) : ℚ) := by positivity
  have hr1 : (m.toList.countP (fun c => isEmojiClass c) : ℚ)
      / ((max m.toList.length 1 : ℕ) : ℚ) ≤ 1 := by
    rw [div_le_one hden]
    exact_mod_cast le_trans (List.countP_le_length _) (le_max_left _ _)
  unfold analyze_communication_style TraitsBounded
  dsimp only
  refine ⟨?_, ?_, ?_, ?_, ?_, ?_, ?_, ?_, ?_, ?_⟩
  · split_ifs
    · exact le_min (by linarith) zero_le_one
    · exact le_max_right _ _
    · exact f0
  · split_ifs
    · exact min_le_right _ _
    · exact max_le (by linarith) zero_le_one
    · exact f1
  · split_ifs
    · exact le_min (by linarith) zero_le_one
    · exact le_max_right _ _
    · exact v0
  · split_ifs
    · exact min_le_right _ _
    · exact max_le (by linarith) zero_le_one
    · exact v1
  · linarith
  · linarith
  · exact u0
  · exact u1
  · split_ifs <;> linarith
  · split_ifs <;> linarith

/-- A full `update_from_message` keeps every bounded trait in [0,1] (only the
style-inference step touches them). -/
lemma traits_bounded_step (p : Profile) (m : String) (e : Option EmotionResult)
    (h : TraitsBounded p) : TraitsBounded (update_from_message p m e) := by
  have hs := style_bounded
    { p with statistics := { p.statistics with
        total_messages := p.statistics.total_messages + 1 } } m h
  cases e with
  | none => exact hs
  | some ev => exact hs

/-- The trait invariant is preserved by any fold of updates. -/
lemma traits_bounded_foldl (l : List (String × Option EmotionResult)) (p : Profile)
    (h : TraitsBounded p) :
    TraitsBounded (l.foldl (fun q u => update_from_message q u.1 u.2) p) := by
  induction l generalizing p with
  | nil => exact h
  | cons u t ih => exact ih _ (traits_bounded_step _ _ _ h)

/-- C3: over any finite sequence of `update_from_message` calls starting from
a freshly created profile, the five bounded trait fields — formality,
verbosity, emoji_usage, humor_preference and question_frequency — remain in
[0,1] after every update (the fold's value after any prefix is such a state,
so the invariant holds after each step). -/
theorem traits_stay_bounded (updates : List (String × Option EmotionResult)) :
    TraitsBounded (updates.foldl (fun q u => update_from_message q u.1 u.2)
      new_profile) :=
  traits_bounded_foldl updates new_profile
    ⟨by decide, by decide, by decide, by decide, by decide,
     by decide, by decide, by decide, by decide, by decide⟩

/-- Append-then-truncate never exceeds the cap. -/
lemma length_truncate_le {α : Type} (l : List α) (e : α) (cap : ℕ) :
    (if (l ++ [e]).length > cap then (l ++ [e]).drop ((l ++ [e]).length - cap)
     else l ++ [e]).length ≤ cap := by
  split_ifs with h
  · rw [List.length_drop]
    omega
  · omega


/-- Looking up the key just set. -/
lemma groq_get_set_eq (h : GroqHistory) (k : String) (v : List GroqExchange) :
    (GroqHistory.set h k v).get k = some v := by
  induction h with
  | nil => simp [GroqHistory.set, GroqHistory.get]
  | cons q t ih =>
    obtain ⟨qk, qv⟩ := q
    by_cases hk : qk = k
    · subst hk
      simp [GroqHistory.set, GroqHistory.get]
    · simp [GroqHistory.set, GroqHistory.get, hk, Ne.symm hk, ih]

/-- Looking up another key after a set. -/
lemma groq_get_set_ne (h : GroqHistory) (k c : String) (v : List GroqExchange)
    (hne : c ≠ k) : (GroqHistory.set h k v).get c = h.get c := by
  induction h with
  | nil => simp [GroqHistory.set, GroqHistory.get, hne]
  | cons q t ih =>
    obtain ⟨qk, qv⟩ := q
    by_cases hk : qk = k
    · subst hk
      simp [GroqHistory.set, GroqHistory.get, hne]
    · by_cases hc : c = qk <;> simp [GroqHistory.set, GroqHistory.get, hk, hc, ih]

/-- One `_update_conversation` call keeps every conversation at ≤ 20
exchanges. -/
lemma conv_caps_step (h : GroqHistory) (cid u a : String)
    (hinv : ∀ c, (((h.get c).getD []).length ≤ 20)) :
    ∀ c, ((((update_conversation h cid u a).get c).getD []).length ≤ 20) := by
  intro c
  by_cases hc : c = cid
  · subst hc
    unfold update_conversation
    rw [groq_get_set_eq]
    simpa using length_truncate_le ((h.get c).getD []) { user := u, assistant := a } 20
  · unfold update_conversation
    rw [groq_get_set_ne _ _ _ _ hc]
    exact hinv c

/-- The provider-side cap holds after any fold of `_update_conversation`
calls. -/
lemma conv_caps_foldl (ops : List (String × String × String)) (h : GroqHistory)
    (hinv : ∀ c, (((h.get c).getD []).length ≤ 20)) :
    ∀ c, ((((ops.foldl (fun g o => update_conversation g o.1 o.2.1 o.2.2) h).get
      c).getD []).length ≤ 20) := by
  induction ops generalizing h with
  | nil => exact hinv
  | cons o t ih => exact ih _ (conv_caps_step _ _ _ _ hinv)
/-- Append-then-truncate is a suffix of the appended list (oldest evicted
first). -/
lemma suffix_truncate {α : Type} (l : List α) (e : α) (cap : ℕ) :
    (if (l ++ [e]).length > cap then (l ++ [e]).drop ((l ++ [e]).length - cap)
     else l ++ [e]) <:+ (l ++ [e]) := by
  split_ifs
  · exact List.drop_suffix _ _
  · exact List.suffix_refl _

/-- One `update_from_message` keeps the profile history buffers capped. -/
lemma profile_caps_step (p : Profile) (m : String) (e : Option EmotionResult)
    (h50 : p.emotional_profile.emotion_history.length ≤ 50) :
    (update_from_message p m e).conversation_history.length ≤ 100 ∧
    (update_from_message p m e).emotional_profile.emotion_history.length ≤ 50 := by
  cases e with
  | none =>
    exact ⟨length_truncate_le p.conversation_history
      { message := m, emotion := none } 100, h50⟩
  | some ev =>
    refine ⟨length_truncate_le p.conversation_history
      { message := m, emotion := some ev } 100, ?_⟩
    exact length_truncate_le p.emotional_profile.emotion_history
      { emotion := ev.emotion, sentiment := ev.sentiment } 50

/-- The profile buffer caps hold after any fold of updates. -/
lemma profile_caps_foldl (l : List (String × Option EmotionResult)) (p : Profile)
    (h100 : p.conversation_history.length ≤ 100)
    (h50 : p.emotional_profile.emotion_history.length ≤ 50) :
    (l.foldl (fun q u => update_from_message q u.1 u.2) p).conversation_history.length ≤ 100 ∧
    (l.foldl (fun q u => update_from_message q u.1 u.2)
      p).emotional_profile.emotion_history.length ≤ 50 := by
  induction l generalizing p with
  | nil => exact ⟨h100, h50⟩
  | cons u t ih =>
    obtain ⟨a, b⟩ := profile_caps_step p u.1 u.2 h50
    exact ih _ a b

/-- C4: starting from a fresh profile, `conversation_history` never exceeds
100 entries and `emotion_history` never exceeds 50, with the oldest entries
evicted first (each update's history is a suffix of the old history plus the
new entry); and the provider-side per-conversation history never exceeds 20
exchanges over any sequence of `_update_conversation` calls. -/
theorem history_buffers_capped :
    (∀ (updates : List (String × Option EmotionResult)),
      (updates.foldl (fun q u => update_from_message q u.1 u.2)
        new_profile).conversation_history.length ≤ 100 ∧
      (updates.foldl (fun q u => update_from_message q u.1 u.2)
        new_profile).emotional_profile.emotion_history.length ≤ 50) ∧
    (∀ (p : Profile) (m : String) (e : Option EmotionResult),
      (update_from_message p m e).conversation_history <:+
        (p.conversation_history ++ [{ message := m, emotion := e }])) ∧
    (∀ (ops : List (String × String × String)) (c : String),
      ((((ops.foldl (fun g o => update_conversation g o.1 o.2.1 o.2.2)
        ([] : GroqHistory)).get c).getD []).length ≤ 20)) := by
  refine ⟨fun updates => profile_caps_foldl updates new_profile (by decide) (by decide),
    fun p m e => ?_, fun ops c => conv_caps_foldl ops [] (by intro c; simp [GroqHistory.get, List.lookup]) c⟩
  cases e with
  | none => exact suffix_truncate p.conversation_history _ 100
  | some ev => exact suffix_truncate p.conversation_history _ 100


/-- The head surviving a `dropWhile` fails the predicate. -/
lemma dropWhile_head_false {α : Type} {p : α → Bool} {l : List α} {x : α}
    {xs : List α} (h : l.dropWhile p = x :: xs) : p x = false := by
  induction l with
  | nil => simp at h
  | cons a t ih =>
    rw [List.dropWhile_cons] at h
    split_ifs at h with hp
    · exact ih h
    · cases h
      simpa using hp

/-- Dropping with a weaker predicate first does not change a `dropWhile`. -/
lemma dropWhile_dropWhile {α : Type} {p q : α → Bool}
    (h : ∀ a, p a = true → q a = true) (l : List α) :
    l.dropWhile q = (l.dropWhile p).dropWhile q := by
  induction l with
  | nil => rfl
  | cons a t ih =>
    by_cases hp : p a
    · rw [show (a :: t).dropWhile p = t.dropWhile p by
        rw [List.dropWhile_cons, if_pos hp]]
      rw [show (a :: t).dropWhile q = t.dropWhile q by
        rw [List.dropWhile_cons, if_pos (h a hp)]]
      exact ih
    · rw [show (a :: t).dropWhile p = a :: t by
        rw [List.dropWhile_cons, if_neg hp]]

/-- A `dropWhile` keeps at least every element failing the predicate. -/
lemma countP_not_le_dropWhile_length {α : Type} (p : α → Bool) (l : List α) :
    l.countP (fun a => !p a) ≤ (l.dropWhile p).length := by
  induction l with
  | nil => simp
  | cons a t ih =>
    rw [List.countP_cons, List.dropWhile_cons]
    by_cases hp : p a
    · rw [if_pos hp]
      simpa [hp] using ih
    · rw [if_neg hp]
      have ht := List.countP_le_length (p := fun a => !p a) (l := t)
      have hone : (if (!p a) = true then 1 else 0) ≤ 1 := by split_ifs <;> omega
      simp only [List.length_cons]
      omega

/-- C2 amended: `can_make_request` only evicts expired timestamps (the
retained deque is a suffix of the old one — checking records nothing); a full
window forces `false`; a free slot gives zero wait; and when the check fails
with at least one retained timestamp, the wait is exactly the time until the
oldest retained timestamp leaves the window — strictly positive, and strictly
decreasing as time advances while that oldest timestamp remains in the
window.  (With `max_requests = 0` and an empty deque the check also fails but
the wait is 0; see the counterexample.) -/
theorem rate_limiter_window_behavior (rl : RateLimiter) (now nowLater : ℚ) :
    ((can_make_request now rl).1.requests <:+ rl.requests) ∧
    (rl.max_requests ≤ rl.requests.countP (fun t => now - rl.time_window < t) →
      (can_make_request now rl).2 = false) ∧
    ((can_make_request now rl).2 = true → wait_for_rate_limit now rl = 0) ∧
    (∀ oldest rest, (can_make_request now rl).2 = false →
      (can_make_request now rl).1.requests = oldest :: rest →
      wait_for_rate_limit now rl = oldest + rl.time_window - now ∧
      0 < wait_for_rate_limit now rl ∧
      (now < nowLater → nowLater - rl.time_window < oldest →
        wait_for_rate_limit nowLater rl < wait_for_rate_limit now rl)) := by
  refine ⟨List.dropWhile_suffix _, fun hfull => ?_, fun hfree => ?_,
    fun oldest rest hblocked hhead => ?_⟩
  · simp only [can_make_request, decide_eq_false_iff_not, not_lt]
    calc rl.max_requests
        ≤ rl.requests.countP (fun t => now - rl.time_window < t) := hfull
      _ = rl.requests.countP
            (fun t => !(decide (t ≤ now - rl.time_window))) := by
          apply List.countP_congr
          intro a _
          simp [not_le]
      _ ≤ _ := countP_not_le_dropWhile_length _ _
  · simp only [wait_for_rate_limit, can_make_request] at hfree ⊢
    rw [if_pos hfree]
  · have hnotle : ¬ oldest ≤ now - rl.time_window := by
      have := dropWhile_head_false (p := fun t => decide (t ≤ now - rl.time_window))
        (l := rl.requests) (by simpa [can_make_request] using hhead)
      simpa using this
    have hpos : 0 < oldest + rl.time_window - now := by
      push_neg at hnotle
      linarith
    have hwait : wait_for_rate_limit now rl = oldest + rl.time_window - now := by
      simp only [wait_for_rate_limit, can_make_request] at hblocked ⊢
      rw [hblocked]
      simp only [Bool.false_eq_true, if_false]
      simp only [can_make_request] at hhead
      rw [hhead]
      exact max_eq_right (le_of_lt hpos)
    refine ⟨hwait, hwait ▸ hpos, fun hlt holdest => ?_⟩
    have hkept : rl.requests.dropWhile (fun t => decide (t ≤ nowLater - rl.time_window))
        = oldest :: rest := by
      rw [dropWhile_dropWhile (p := fun t => decide (t ≤ now - rl.time_window))
        (q := fun t => decide (t ≤ nowLater - rl.time_window))
        (by intro a ha; simp only [decide_eq_true_eq] at ha ⊢; linarith) rl.requests]
      have : (can_make_request now rl).1.requests =
          rl.requests.dropWhile (fun t => decide (t ≤ now - rl.time_window)) := rfl
      rw [this] at hhead
      rw [hhead, List.dropWhile_cons, if_neg (by simp; linarith)]
    have hblocked' : (can_make_request nowLater rl).2 = false := by
      simp only [can_make_request] at hblocked ⊢
      rw [hkept]
      have : (can_make_request now rl).1.requests =
          rl.requests.dropWhile (fun t => decide (t ≤ now - rl.time_window)) := rfl
      rw [this] at hhead
      rw [hhead] at hblocked
      exact hblocked
    have hwait' : wait_for_rate_limit nowLater rl
        = oldest + rl.time_window - nowLater := by
      simp only [wait_for_rate_limit, can_make_request]
      rw [hkept]
      simp only [can_make_request] at hblocked'
      rw [hkept] at hblocked'
      rw [hblocked']
      simp only [Bool.false_eq_true, if_false]
      exact max_eq_right (by linarith)
    rw [hwait, hwait']
    linarith

/-- C2 counterexample: with `max_requests = 0` and an empty deque, "at least
maxRequests timestamps lie within the window" holds vacuously and
`can_make_request` returns false, yet `wait_for_rate_limit` returns 0, not a
strictly positive duration. -/
theorem rate_limiter_zero_quota_counterexample :
    (({ max_requests := 0, time_window := 60, requests := [] } :
        RateLimiter).requests.countP (fun t => (0 : ℚ) - 60 < t)
      ≥ ({ max_requests := 0, time_window := 60, requests := [] } :
        RateLimiter).max_requests) ∧
    (can_make_request 0 { max_requests := 0, time_window := 60, requests := [] }).2
      = false ∧
    wait_for_rate_limit 0 { max_requests := 0, time_window := 60, requests := [] }
      = 0 := by
  refine ⟨by decide, by decide, by decide⟩


/-- Every fallback template table is nonempty. -/
lemma fallback_table_ne_nil (e : Option EmotionResult) : fallback_table e ≠ [] := by
  cases e with
  | none => decide
  | some ev =>
    simp only [fallback_table]
    split_ifs <;> decide

/-- Every fallback template is a nonempty string. -/
lemma fallback_table_all_nonempty (e : Option EmotionResult) :
    ∀ x ∈ fallback_table e, x ≠ "" := by
  cases e with
  | none => decide
  | some ev =>
    simp only [fallback_table]
    split_ifs <;> decide

/-- The chosen fallback belongs to the emotion-keyed table. -/
lemma get_fallback_response_mem (e : Option EmotionResult) (choice : ℕ) :
    get_fallback_response e choice ∈ fallback_table e := by
  unfold get_fallback_response
  have hlen : 0 < (fallback_table e).length :=
    List.length_pos.mpr (fallback_table_ne_nil e)
  have hmod : choice % (fallback_table e).length < (fallback_table e).length :=
    Nat.mod_lt _ hlen
  rw [List.getD_eq_getElem _ _ hmod]
  exact List.getElem_mem _

/-- C1 amended: when the rate-limit check passes and the provider call raises,
`generate_response` does not raise: it returns a non-empty string drawn from
the emotion-keyed fallback template table — but the conversation history is
NOT updated on this path (only a successful provider call appends to it). -/
theorem provider_failure_fallback_no_raise (now : ℚ) (st : GroqState)
    (message conversation_id : String) (user_emotion : Option EmotionResult)
    (choice : ℕ) (hok : (can_make_request now st.rate_limiter).2 = true) :
    ∃ reply st', generate_response now st message conversation_id user_emotion
        (Except.error ()) choice = Except.ok (reply, st') ∧
      reply ≠ "" ∧ reply ∈ fallback_table user_emotion ∧
      st'.conversation_history = st.conversation_history := by
  refine ⟨get_fallback_response user_emotion choice,
    { st with rate_limiter :=
        add_request now (can_make_request now st.rate_limiter).1 }, ?_, ?_, ?_, rfl⟩
  · unfold generate_response
    rw [if_neg (by simp [hok])]
  · exact fallback_table_all_nonempty user_emotion _
      (get_fallback_response_mem user_emotion choice)
  · exact get_fallback_response_mem user_emotion choice

/-- C1 witness: a concrete provider failure on a fresh engine returns a
fallback without touching the (empty) history. -/
theorem provider_failure_fallback_no_raise_witness :
    ∃ reply st', generate_response 0 ⟨⟨30, 60, []⟩, []⟩ "hello" "default"
        (some ⟨"sadness", -(1 / 2), 1 / 2⟩) (Except.error ()) 0
        = Except.ok (reply, st') ∧
      reply ≠ "" ∧ reply ∈ fallback_table (some ⟨"sadness", -(1 / 2), 1 / 2⟩) ∧
      st'.conversation_history
        = (⟨⟨30, 60, []⟩, []⟩ : GroqState).conversation_history :=
  provider_failure_fallback_no_raise 0 ⟨⟨30, 60, []⟩, []⟩ "hello" "default"
    (some ⟨"sadness", -(1 / 2), 1 / 2⟩) 0 (by decide)

/-- C1 counterexample: on a provider failure the returned state's history has
NO entry for the conversation — the fallback exchange is not recorded, against
the claim that history is still updated. -/
theorem provider_failure_history_counterexample :
    generate_response 0 ⟨⟨30, 60, []⟩, []⟩ "hello" "default"
        (some ⟨"sadness", -(1 / 2), 1 / 2⟩) (Except.error ()) 0
      = Except.ok
          ("I understand you're feeling sad. I'm here to listen and support you.",
            ⟨⟨30, 60, [0]⟩, []⟩) ∧
    GroqHistory.get (⟨⟨30, 60, [0]⟩, []⟩ : GroqState).conversation_history "default"
      = none := by
  refine ⟨rfl, by decide⟩

end BuddyAI
